import Mathlib

/-!
A verification development for the wallpaper-scraper repository.

The Python sources are shallowly embedded: pure data manipulation becomes
Lean functions over lists, strings and rationals; stateful code (the file
system, the rate limiter clock, the download semaphore, the event loop)
becomes explicit state passing or an Option-valued step function over a
state type; fallible code returns Option.  Times are modelled as rationals
(the event-loop monotonic clock), the file system as the list of file paths
that exist.
-/

namespace WallpaperScraper

/-! ## A model of Python values

Listing responses are JSON decoded by `response.json()`, so items are
Python values: `None`, strings, numbers, booleans, lists and dicts.
`.get` on a non-dict raises `AttributeError`; we model a raising access by
`Option.none` at the call sites that can raise.
-/

inductive PyVal where
  | pyNone : PyVal
  | str : String → PyVal
  | num : Int → PyVal
  | bool : Bool → PyVal
  | list : List PyVal → PyVal
  | dict : List (String × PyVal) → PyVal
deriving Repr

/-- Python truthiness: `None`, `""`, `0`, `False`, `[]`, `{}` are falsy. -/
def pyTruthy : PyVal → Bool
  | PyVal.pyNone => false
  | PyVal.str s => s ≠ ""
  | PyVal.num n => n ≠ 0
  | PyVal.bool b => b
  | PyVal.list l => !l.isEmpty
  | PyVal.dict d => !d.isEmpty

/-- Python `x or y`: `x` when truthy, else `y`. -/
def pyOr (a b : PyVal) : PyVal := if pyTruthy a then a else b

/-- Interpolation `str(v)` / f-string conversion for the scalar values the scrapers
interpolate.  The textual form of container values is abstracted (no
theorem depends on it). -/
def pyStr : PyVal → String
  | PyVal.pyNone => "None"
  | PyVal.str s => s
  | PyVal.num n => toString n
  | PyVal.bool b => if b then "True" else "False"
  | PyVal.list _ => "[...]"
  | PyVal.dict _ => "\x7b...\x7d"

/-- Model of `d.get(k, default)`: `some` of the stored value (or the default when
the key is absent) when `d` is a dict; `none` models the `AttributeError`
raised when `.get` is called on a non-dict value. -/
def pyGet (v : PyVal) (k : String) (dflt : PyVal) : Option PyVal :=
  match v with
  | PyVal.dict kvs => some ((kvs.lookup k).getD dflt)
  | _ => Option.none

/-- Iteration `for item in v`: lists yield their items, strings their characters,
dicts their keys; iterating any other value raises (`none`). -/
def pyIter : PyVal → Option (List PyVal)
  | PyVal.list l => some l
  | PyVal.str s => some (s.data.map (fun c => PyVal.str (String.mk [c])))
  | PyVal.dict kvs => some (kvs.map (fun kv => PyVal.str kv.1))
  | _ => Option.none

/-- Truthiness of an optional string (a Python variable that is `None` or
a `str`): `if not x` is taken when `x` is `None` or `""`. -/
def pyTruthyStr : Option String → Bool
  | Option.none => false
  | some s => s ≠ ""

/-! ## Python string helpers used by `src/utils/download.py` -/

/-- The ASCII characters `str.strip()` removes. -/
def isPySpace (c : Char) : Bool :=
  c == ' ' || c == '\t' || c == '\n' || c == '\x0d' || c == '\x0b' || c == '\x0c'

/-- Strip characters satisfying `p` from both ends (Python `str.strip`). -/
def pyStrip (p : Char → Bool) (l : List Char) : List Char :=
  ((l.dropWhile p).reverse.dropWhile p).reverse

/-- Index of the last occurrence of `c` in `l` (Python `str.rfind`),
`none` when absent. -/
def rfindIdx (c : Char) (l : List Char) : Option Nat :=
  (l.enum.filter (fun ic => ic.2 == c)).getLast?.map (fun ic => ic.1)

/-- Model of `os.path.splitext` (posix): split at the last dot after the last `/`,
except that a basename consisting only of dots up to that dot has no
extension (so `.bashrc` has none). -/
def splitext (p : List Char) : List Char × List Char :=
  match rfindIdx '.' p with
  | Option.none => (p, [])
  | some dotIdx =>
    let sepIdx : Int := match rfindIdx '/' p with
      | some i => (i : Int)
      | Option.none => -1
    if sepIdx < (dotIdx : Int) then
      let filenameStart := (sepIdx + 1).toNat
      if ((p.drop filenameStart).take (dotIdx - filenameStart)).all (fun c => c == '.') then
        (p, [])
      else
        (p.take dotIdx, p.drop dotIdx)
    else
      (p, [])

/-- Python slicing `l[:n]`, where a negative `n` counts from the end. -/
def pyTakeInt (l : List Char) (n : Int) : List Char :=
  if 0 ≤ n then l.take n.toNat else l.take (l.length - n.natAbs)

/-- Python `str.split(sep)[0]`: the prefix of `l` before the first occurrence of
`sep` (the whole string when `sep` is absent). -/
def takeUntilChar (sep : Char) (l : List Char) : List Char :=
  l.takeWhile (fun c => c ≠ sep)

/-- Embedding of `get_file_extension_from_url` (src/utils/download.py lines 93-105):
drop the query string, then `os.path.splitext(...)[1]`. -/
def get_file_extension_from_url (url : String) : String :=
  String.mk (splitext (takeUntilChar '?' url.data)).2

/-! ## `sanitize_filename` (src/utils/download.py lines 107-134) -/

/-- The characters the source replaces: `<>:"/\|?*`. -/
def invalidChars : List Char := ['<', '>', ':', '"', '/', '\\', '|', '?', '*']

/-- Line 118-120: replace each invalid character with an underscore. -/
def replaceInvalid (l : List Char) : List Char :=
  l.map (fun c => if c ∈ invalidChars then '_' else c)

/-- Line 123: `filename.strip().strip('.')`. -/
def stripWsDots (l : List Char) : List Char :=
  pyStrip (fun c => c == '.') (pyStrip isPySpace l)

/-- Lines 126-128: when longer than 255, keep the extension and truncate
the base with the Python slice `base[:255-len(ext)]`. -/
def truncate255 (l : List Char) : List Char :=
  if 255 < l.length then
    pyTakeInt (splitext l).1 (255 - ((splitext l).2.length : Int)) ++ (splitext l).2
  else l

/-- Embedding of `sanitize_filename` (src/utils/download.py lines 107-134). -/
def sanitize_filename (s : String) : String :=
  let f := truncate255 (stripWsDots (replaceInvalid s.data))
  if f = [] then "wallpaper" else String.mk f

/-! ### Lemmas about `sanitize_filename` -/

lemma not_mem_invalid_of_mem_replaceInvalid {c : Char} {l : List Char}
    (h : c ∈ replaceInvalid l) : c ∉ invalidChars := by
  simp only [replaceInvalid, List.mem_map] at h
  obtain ⟨a, _, rfl⟩ := h
  by_cases ha : a ∈ invalidChars
  · simp only [ha, if_pos]
    decide
  · simp [ha]

lemma mem_of_mem_pyStrip {p : Char → Bool} {c : Char} {l : List Char}
    (h : c ∈ pyStrip p l) : c ∈ l := by
  unfold pyStrip at h
  rw [List.mem_reverse] at h
  have h2 := (List.dropWhile_sublist (l := (l.dropWhile p).reverse) p).subset h
  rw [List.mem_reverse] at h2
  exact (List.dropWhile_sublist (l := l) p).subset h2

lemma splitext_cases (p : List Char) :
    splitext p = (p, []) ∨ ∃ i, splitext p = (p.take i, p.drop i) := by
  unfold splitext
  cases h : rfindIdx '.' p with
  | none => exact Or.inl rfl
  | some dotIdx =>
    simp only []
    split
    · split
      · exact Or.inl rfl
      · exact Or.inr ⟨dotIdx, rfl⟩
    · exact Or.inl rfl

lemma pyTakeInt_subset (l : List Char) (n : Int) : pyTakeInt l n ⊆ l := by
  unfold pyTakeInt
  split
  · exact List.take_subset _ _
  · exact List.take_subset _ _

lemma mem_of_mem_truncate255 {c : Char} {l : List Char}
    (h : c ∈ truncate255 l) : c ∈ l := by
  unfold truncate255 at h
  split at h
  · rcases splitext_cases l with hs | ⟨i, hs⟩ <;> rw [hs] at h <;>
      rcases List.mem_append.mp h with h' | h'
    · exact pyTakeInt_subset _ _ h'
    · exact absurd h' (List.not_mem_nil c)
    · exact List.take_subset _ _ (pyTakeInt_subset _ _ h')
    · exact List.drop_subset _ _ h'
  · exact h

lemma pyTakeInt_length_le (l : List Char) (n : Int) (hn : 0 ≤ n) :
    ((pyTakeInt l n).length : Int) ≤ n := by
  unfold pyTakeInt
  rw [if_pos hn, List.length_take]
  omega

lemma pyTake_append_le (b e : List Char) (h : e.length ≤ 255) :
    (pyTakeInt b (255 - (e.length : Int)) ++ e).length ≤ 255 := by
  have h0 : (0 : Int) ≤ 255 - (e.length : Int) := by omega
  have := pyTakeInt_length_le b (255 - (e.length : Int)) h0
  simp only [List.length_append]
  omega

lemma truncate255_length (l : List Char) (h : (splitext l).2.length ≤ 255) :
    (truncate255 l).length ≤ 255 := by
  unfold truncate255
  split
  · rcases splitext_cases l with hs | ⟨i, hs⟩ <;> rw [hs] <;> rw [hs] at h
    · exact pyTake_append_le l [] (by simp)
    · exact pyTake_append_le (l.take i) (l.drop i) h
  · omega

lemma mem_of_mem_stripWsDots {c : Char} {l : List Char}
    (h : c ∈ stripWsDots l) : c ∈ l :=
  mem_of_mem_pyStrip (mem_of_mem_pyStrip h)

/-- C10: for every input string, `sanitize_filename` returns a non-empty
string containing none of the characters `<>:"/\|?*`; its length is at
most 255 whenever the dot-extension of the cleaned-up name is at most 255
characters long (the unconditional 255 bound of the original claim fails,
see the counterexample: when the extension alone exceeds 255 characters
the Python slice `base[:255-len(ext)]` is a negative slice and the result
keeps the whole over-long extension). -/
theorem c10_sanitize_filename_amended (s : String) :
    sanitize_filename s ≠ "" ∧
    (∀ c ∈ (sanitize_filename s).data, c ∉ invalidChars) ∧
    ((splitext (stripWsDots (replaceInvalid s.data))).2.length ≤ 255 →
      (sanitize_filename s).length ≤ 255) := by
  simp only [sanitize_filename]
  split
  · exact ⟨by decide, by decide, fun _ => by decide⟩
  · next hne =>
    refine ⟨?_, ?_, ?_⟩
    · intro he
      exact hne (congrArg String.data he)
    · intro c hc
      exact not_mem_invalid_of_mem_replaceInvalid
        (mem_of_mem_stripWsDots (mem_of_mem_truncate255 hc))
    · intro hext
      exact truncate255_length (stripWsDots (replaceInvalid s.data)) hext

/-- Witness for C10 at a concrete input. -/
theorem c10_sanitize_filename_witness :
    sanitize_filename "photo: a*b?.jpg" ≠ "" ∧
    (sanitize_filename "photo: a*b?.jpg").length ≤ 255 := by
  have h := c10_sanitize_filename_amended "photo: a*b?.jpg"
  exact ⟨h.1, h.2.2 (by decide)⟩

set_option maxRecDepth 8192 in
/-- Counterexample to C10 as originally stated: an input whose dot
extension is 301 characters long yields a 301-character result, above the
claimed 255 bound. -/
theorem c10_sanitize_filename_counterexample :
    255 < (sanitize_filename (String.mk ('a' :: '.' :: List.replicate 300 'b'))).length := by
  decide


/-! ## The rate limiter: `BaseScraper._respect_rate_limit`
(src/src/scrapers/base_scraper.py lines 78-86)

Time is the event-loop monotonic clock, modelled as a rational.  A call
reads the clock (`now`), sleeps `rate_limit - (now - last_request_time)`
when that is positive, then reads the clock again and stores it in
`last_request_time`.  `slack` models how much `asyncio.sleep` and the
second clock read overshoot the requested duration (0 for an ideal
scheduler, never negative).
-/

/-- Embedding of `_respect_rate_limit` run without interleaving (no other task touches
the instance between the clock read and the write).  Returns
`(return time, recorded last_request_time)`. -/
def respect_rate_limit (rateLimit last now slack : ℚ) : ℚ × ℚ :=
  if now - last < rateLimit then
    (now + (rateLimit - (now - last)) + slack,
     now + (rateLimit - (now - last)) + slack)
  else (now, now)

lemma respect_rate_limit_rec_eq_ret (r last now slack : ℚ) :
    (respect_rate_limit r last now slack).2 = (respect_rate_limit r last now slack).1 := by
  unfold respect_rate_limit
  split <;> rfl

lemma respect_rate_limit_spacing (r last now slack : ℚ) (_hr : 0 ≤ r)
    (hs : 0 ≤ slack) (_hnow : last ≤ now) :
    last + r ≤ (respect_rate_limit r last now slack).1 := by
  unfold respect_rate_limit
  split <;> simp only [] <;> linarith

/-- C1: for every configured interval, when two `wait()` calls on the same
limiter instance run in sequence (the second starting after the first
returns), at least `rateLimit` seconds elapse between the first call's
recorded dispatch time and the second call's return, and the second call
records its return time as the new dispatch time.  Instantiating
`rateLimit := 1/10` gives the 0.1-second scenario of the spec. -/
theorem c1_rate_limit_sequential (rateLimit last0 now1 now2 slack1 slack2 : ℚ)
    (hr : 0 ≤ rateLimit) (_hs1 : 0 ≤ slack1) (hs2 : 0 ≤ slack2)
    (_h0 : last0 ≤ now1)
    (hseq : (respect_rate_limit rateLimit last0 now1 slack1).1 ≤ now2) :
    rateLimit ≤
        (respect_rate_limit rateLimit
            (respect_rate_limit rateLimit last0 now1 slack1).2 now2 slack2).1 -
          (respect_rate_limit rateLimit last0 now1 slack1).2 ∧
      (respect_rate_limit rateLimit
          (respect_rate_limit rateLimit last0 now1 slack1).2 now2 slack2).2 =
        (respect_rate_limit rateLimit
            (respect_rate_limit rateLimit last0 now1 slack1).2 now2 slack2).1 := by
  constructor
  · have hle : (respect_rate_limit rateLimit last0 now1 slack1).2 ≤ now2 := by
      rw [respect_rate_limit_rec_eq_ret]
      exact hseq
    have := respect_rate_limit_spacing rateLimit
      (respect_rate_limit rateLimit last0 now1 slack1).2 now2 slack2 hr hs2 hle
    linarith
  · exact respect_rate_limit_rec_eq_ret _ _ _ _

/-- Witness for C1: interval 0.1s, first call at t=5 (no sleep needed),
second call at t=5.01; the elapsed time from the first recorded dispatch
to the second return is exactly 0.1s. -/
theorem c1_rate_limit_sequential_witness :
    (1 : ℚ)/10 ≤
        (respect_rate_limit (1/10)
            (respect_rate_limit (1/10) 0 5 0).2 (501/100) 0).1 -
          (respect_rate_limit (1/10) 0 5 0).2 :=
  (c1_rate_limit_sequential (1/10) 0 5 (501/100) 0 0 (by norm_num) le_rfl le_rfl
    (by norm_num) (by norm_num [respect_rate_limit])).1

/-! ### Concurrent calls to `_respect_rate_limit` (C8)

The body of `_respect_rate_limit` suspends at `await asyncio.sleep(...)`
between reading `self.last_request_time` (line 81) and writing it
(line 86).  Under asyncio's cooperative scheduling a call is therefore two
atomic halves: read-and-start-sleep at its start time, and
wake-record-return at its wake time; another task on the same instance may
run in between.  There is no lock in the source.
-/

inductive TaskPhase where
  | notStarted : TaskPhase
  | sleeping (wake : ℚ) : TaskPhase
  | finished (ret : ℚ) : TaskPhase
deriving Repr, DecidableEq

structure LoopState where
  lastRequestTime : ℚ
  clock : ℚ
  taskA : TaskPhase
  taskB : TaskPhase
deriving Repr, DecidableEq

inductive LoopEvent where
  | start (isA : Bool) (now : ℚ) : LoopEvent
  | wake (isA : Bool) : LoopEvent
deriving Repr, DecidableEq

def getTask (s : LoopState) (isA : Bool) : TaskPhase :=
  if isA then s.taskA else s.taskB

def setTask (s : LoopState) (isA : Bool) (p : TaskPhase) : LoopState :=
  if isA then { s with taskA := p } else { s with taskB := p }

/-- One event-loop step: `start` runs lines 80-84 (clock read, comparison,
and either the start of the sleep or, when no sleep is needed, the
synchronous write of line 86); `wake` runs line 86 after the sleep.
`none` when the event is not enabled (clock monotonicity included). -/
def loopStep (rateLimit : ℚ) (s : LoopState) : LoopEvent → Option LoopState
  | LoopEvent.start isA now =>
    match getTask s isA with
    | TaskPhase.notStarted =>
      if s.clock ≤ now then
        if now - s.lastRequestTime < rateLimit then
          some (setTask { s with clock := now } isA
            (TaskPhase.sleeping (now + (rateLimit - (now - s.lastRequestTime)))))
        else
          some (setTask { s with clock := now, lastRequestTime := now } isA
            (TaskPhase.finished now))
      else Option.none
    | _ => Option.none
  | LoopEvent.wake isA =>
    match getTask s isA with
    | TaskPhase.sleeping w =>
      if s.clock ≤ w then
        some (setTask { s with clock := w, lastRequestTime := w } isA
          (TaskPhase.finished w))
      else Option.none
    | _ => Option.none

def loopRun (rateLimit : ℚ) : LoopState → List LoopEvent → Option LoopState
  | s, [] => some s
  | s, e :: es =>
    match loopStep rateLimit s e with
    | some s2 => loopRun rateLimit s2 es
    | Option.none => Option.none

/-- C8 is violated by the code: with interval 1, two tasks that call
`wait()` while the interval has not yet elapsed both read the stale
`last_request_time = 0` (task B reads it before task A's write, which only
happens after A's sleep), both compute the same wake time, and both return
at time 1 — two dispatches separated by 0 < 1 seconds.  The run below is a
legal interleaving of the unlocked source code. -/
theorem c8_rate_limit_race :
    loopRun 1 ⟨0, 0, TaskPhase.notStarted, TaskPhase.notStarted⟩
        [LoopEvent.start true (1/5), LoopEvent.start false (3/10),
         LoopEvent.wake true, LoopEvent.wake false] =
      some ⟨1, 1, TaskPhase.finished 1, TaskPhase.finished 1⟩ := by
  norm_num [loopRun, loopStep, getTask, setTask]


/-! ## The download semaphore (C2)

`BaseScraper.__init__` creates `asyncio.Semaphore(max_concurrent_downloads)`
(base_scraper line 36) and every `download_wallpaper` implementation wraps
its whole body in `async with self.semaphore:` (e.g. unsplash_scraper
line 172).  A download task is therefore: acquire a permit (suspending
while none is free), run the body — which returns a path, returns `None`,
or raises — and release the permit on every exit path (the semantics of
`async with`).  We model the permit counter and the per-task phase and
show the invariant over every valid event sequence.
-/

inductive DownloadOutcome where
  | returnedPath (p : String) : DownloadOutcome
  | returnedNone : DownloadOutcome
  | raised (msg : String) : DownloadOutcome
deriving Repr, DecidableEq

inductive DLPhase where
  | pending : DLPhase
  | active : DLPhase
  | done (o : DownloadOutcome) : DLPhase
deriving Repr, DecidableEq

structure SemState where
  avail : Nat
  tasks : List DLPhase
deriving Repr, DecidableEq

inductive SemEvent where
  | acquire (i : Nat) : SemEvent
  | finish (i : Nat) (o : DownloadOutcome) : SemEvent
deriving Repr, DecidableEq

/-- Is a task currently between permit acquisition and permit release? -/
def isActive (p : DLPhase) : Bool := p = DLPhase.active

def activeCount (s : SemState) : Nat := s.tasks.countP isActive

/-- One scheduler step.  `acquire` is only enabled when a permit is free
(`asyncio.Semaphore.acquire` suspends otherwise); `finish` covers every
way the body can end — a returned path, a returned `None`, or a raised
exception — and `async with` releases the permit in all of them. -/
def semStep (s : SemState) : SemEvent → Option SemState
  | SemEvent.acquire i =>
    match s.tasks.get? i with
    | some DLPhase.pending =>
      if s.avail = 0 then Option.none
      else some ⟨s.avail - 1, s.tasks.set i DLPhase.active⟩
    | _ => Option.none
  | SemEvent.finish i o =>
    match s.tasks.get? i with
    | some DLPhase.active => some ⟨s.avail + 1, s.tasks.set i (DLPhase.done o)⟩
    | _ => Option.none

def semRun : SemState → List SemEvent → Option SemState
  | s, [] => some s
  | s, e :: es =>
    match semStep s e with
    | some s2 => semRun s2 es
    | Option.none => Option.none

/-- The initial state of one adapter instance: `N` free permits,
`k` download tasks not yet started. -/
def semInit (n k : Nat) : SemState := ⟨n, List.replicate k DLPhase.pending⟩

lemma countP_set (l : List DLPhase) (i : Nat) (a b : DLPhase)
    (h : l.get? i = some b) :
    (l.set i a).countP isActive + (if isActive b then 1 else 0) =
      l.countP isActive + (if isActive a then 1 else 0) := by
  induction l generalizing i with
  | nil => simp at h
  | cons x xs ih =>
    cases i with
    | zero =>
      simp only [List.get?] at h
      cases h
      simp only [List.set, List.countP_cons]
      omega
    | succ j =>
      simp only [List.get?] at h
      simp only [List.set, List.countP_cons]
      have := ih j h
      omega

/-- The inductive invariant: free permits plus active downloads equal the
configured limit. -/
def semInv (n : Nat) (s : SemState) : Prop := s.avail + activeCount s = n

lemma semStep_preserves (n : Nat) (s s2 : SemState) (e : SemEvent)
    (hstep : semStep s e = some s2) (hinv : semInv n s) : semInv n s2 := by
  cases e with
  | acquire i =>
    simp only [semStep] at hstep
    cases hget : s.tasks.get? i with
    | none => rw [hget] at hstep; exact absurd hstep (by simp)
    | some ph =>
      rw [hget] at hstep
      cases ph with
      | pending =>
        simp only [] at hstep
        split at hstep
        · exact absurd hstep (by simp)
        · next hne =>
          cases hstep
          have hc := countP_set s.tasks i DLPhase.active DLPhase.pending hget
          simp [isActive] at hc
          simp only [semInv, activeCount] at hinv ⊢
          omega
      | active => exact absurd hstep (by simp)
      | done o => exact absurd hstep (by simp)
  | finish i o =>
    simp only [semStep] at hstep
    cases hget : s.tasks.get? i with
    | none => rw [hget] at hstep; exact absurd hstep (by simp)
    | some ph =>
      rw [hget] at hstep
      cases ph with
      | pending => exact absurd hstep (by simp)
      | active =>
        cases hstep
        have hc := countP_set s.tasks i (DLPhase.done o) DLPhase.active hget
        simp [isActive] at hc
        simp only [semInv, activeCount] at hinv ⊢
        omega
      | done o2 => exact absurd hstep (by simp)

lemma semRun_preserves (n : Nat) : ∀ (events : List SemEvent) (s s2 : SemState),
    semRun s events = some s2 → semInv n s → semInv n s2 := by
  intro events
  induction events with
  | nil =>
    intro s s2 h hinv
    simp only [semRun] at h
    cases h
    exact hinv
  | cons e es ih =>
    intro s s2 h hinv
    simp only [semRun] at h
    cases hstep : semStep s e with
    | none => rw [hstep] at h; exact absurd h (by simp)
    | some s1 =>
      rw [hstep] at h
      exact ih s1 s2 h (semStep_preserves n s s1 e hstep hinv)

/-- C2: on one adapter instance configured with limit `n`, in every state
reachable by a valid event sequence from the initial state the number of
download operations that hold a permit never exceeds `n`; and a `finish`
step — whatever the body's outcome: a path, `None`, or an exception —
always releases its permit (the free-permit count goes up by one). -/
theorem c2_semaphore_bound (n k : Nat) (events : List SemEvent) (s : SemState)
    (hrun : semRun (semInit n k) events = some s) :
    activeCount s ≤ n ∧
      (∀ (s1 s2 : SemState) (i : Nat) (o : DownloadOutcome),
        semStep s1 (SemEvent.finish i o) = some s2 → s2.avail = s1.avail + 1) := by
  constructor
  · have hinit : semInv n (semInit n k) := by
      simp only [semInv, semInit, activeCount]
      have hz : (List.replicate k DLPhase.pending).countP isActive = 0 := by
        rw [List.countP_eq_zero]
        intro p hp
        rw [List.eq_of_mem_replicate hp]
        simp [isActive]
      omega
    have := semRun_preserves n events (semInit n k) s hrun hinit
    simp only [semInv] at this
    omega
  · intro s1 s2 i o hstep
    simp only [semStep] at hstep
    cases hget : s1.tasks.get? i with
    | none => rw [hget] at hstep; exact absurd hstep (by simp)
    | some ph =>
      rw [hget] at hstep
      cases ph with
      | pending => exact absurd hstep (by simp)
      | active => cases hstep; rfl
      | done o2 => exact absurd hstep (by simp)

/-- Witness for C2: limit 1, two tasks; the first acquires, raises, and
releases; then the second can acquire, return `None`, and release.  The
run is valid and ends with no active download. -/
theorem c2_semaphore_bound_witness :
    semRun (semInit 1 2)
        [SemEvent.acquire 0, SemEvent.finish 0 (DownloadOutcome.raised "boom"),
         SemEvent.acquire 1, SemEvent.finish 1 DownloadOutcome.returnedNone] =
        some ⟨1, [DLPhase.done (DownloadOutcome.raised "boom"),
                  DLPhase.done DownloadOutcome.returnedNone]⟩ ∧
      activeCount ⟨1, [DLPhase.done (DownloadOutcome.raised "boom"),
                       DLPhase.done DownloadOutcome.returnedNone]⟩ ≤ 1 := by
  constructor
  · decide
  · exact (c2_semaphore_bound 1 2
      [SemEvent.acquire 0, SemEvent.finish 0 (DownloadOutcome.raised "boom"),
       SemEvent.acquire 1, SemEvent.finish 1 DownloadOutcome.returnedNone]
      ⟨1, [DLPhase.done (DownloadOutcome.raised "boom"),
           DLPhase.done DownloadOutcome.returnedNone]⟩ (by decide)).1


/-! ## `download_file` (src/utils/download.py lines 20-91)

The network outcome of `session.get` is an oracle: either an HTTP
response (status and reason; the body is streamed to the destination on
the success path), a connection error (`aiohttp.ClientError`), or a
timeout (`asyncio.TimeoutError`).  The file system is the list of file
paths that exist; `os.makedirs` only creates directories, which the model
does not track.  Mid-stream write failures are outside the scope of the
claims and are not modelled: a 200 response writes the destination file.
-/

inductive FetchResult where
  | response (status : Nat) (reason : String) : FetchResult
  | clientError (msg : String) : FetchResult
  | timeoutErr : FetchResult
deriving Repr, DecidableEq

/-- Embedding of `download_file`: run against one fetch outcome, it returns
`(success, error_message)` and the updated file system.  Lines 42-44:
a non-200 status returns the failure before the destination is ever
opened; lines 50-76: a 200 response streams the body into the
destination; lines 78-91: client errors and timeouts return their own
messages. -/
def download_file (url : String) (destination : String) (resp : FetchResult)
    (timeout : Nat) (fs : List String) : (Bool × Option String) × List String :=
  match resp with
  | FetchResult.response status reason =>
    if status ≠ 200 then
      ((false, some ("HTTP error " ++ toString status ++ ": " ++ reason)), fs)
    else
      ((true, Option.none), destination :: fs)
  | FetchResult.clientError msg =>
    ((false, some ("Network error downloading " ++ url ++ ": " ++ msg)), fs)
  | FetchResult.timeoutErr =>
    ((false, some ("Timeout downloading " ++ url ++ " after " ++ toString timeout
      ++ " seconds")), fs)

/-- C4: every non-2xx HTTP status makes `download_file` fail with a
message reporting the status code, and the file system is unchanged — in
particular no file is created at the destination.  For a 404 response the
message literally contains `"404"`. -/
theorem c4_download_file_non2xx (url destination reason : String)
    (status timeout : Nat) (fs : List String)
    (hst : status < 200 ∨ 300 ≤ status) :
    (download_file url destination (FetchResult.response status reason) timeout fs).1.1
        = false ∧
      (download_file url destination (FetchResult.response status reason) timeout fs).1.2
        = some ("HTTP error " ++ toString status ++ ": " ++ reason) ∧
      (download_file url destination (FetchResult.response status reason) timeout fs).2
        = fs ∧
      (status = 404 →
        (download_file url destination (FetchResult.response status reason) timeout fs).1.2
          = some ("HTTP error " ++ "404" ++ (": " ++ reason))) := by
  have hne : status ≠ 200 := by omega
  refine ⟨?_, ?_, ?_, ?_⟩ <;> simp [download_file, hne]
  intro h404
  subst h404
  rw [show (toString (404 : Nat)) = "404" from rfl]
  rfl

/-- Witness for C4 at a 404 response: failure, message containing "404",
and no file created on an empty file system. -/
theorem c4_download_file_non2xx_witness :
    (download_file "http://e/x.jpg" "/d/x.jpg"
          (FetchResult.response 404 "Not Found") 60 []).1.1 = false ∧
      (download_file "http://e/x.jpg" "/d/x.jpg"
          (FetchResult.response 404 "Not Found") 60 []).2 = [] := by
  have h := c4_download_file_non2xx "http://e/x.jpg" "/d/x.jpg" "Not Found" 404 60 []
    (Or.inr (by norm_num))
  exact ⟨h.1, h.2.2.1⟩


/-! ## Wallpaper metadata and the download step (C3, C5)

`get_wallpaper_list` builds a dict with a fixed key set
(unsplash_scraper lines 139-154, pixabay_scraper lines 138-156);
`download_wallpaper` reads those keys back with `.get`.  Since every key
is always present, the dict is embedded as a record of Python values.
-/

structure ScraperConfig where
  downloadDirectory : String
  apiKey : Option String
deriving Repr, DecidableEq

structure UWall where
  id : PyVal
  title : PyVal
  thumbnail : PyVal
  small : PyVal
  regular : PyVal
  full : PyVal
  raw : PyVal
  download_url : PyVal
  user : PyVal
  username : PyVal
  width : PyVal
  height : PyVal
  category : PyVal
  orientation : PyVal
deriving Repr

structure PWall where
  id : PyVal
  title : PyVal
  thumbnail : PyVal
  preview : PyVal
  small : PyVal
  full : PyVal
  original : PyVal
  user : PyVal
  user_id : PyVal
  width : PyVal
  height : PyVal
  downloads : PyVal
  likes : PyVal
  views : PyVal
  category : PyVal
  tags : PyVal
  orientation : PyVal
deriving Repr

/-- Unsplash URL choice (unsplash_scraper line 178): only
`wallpaper_data.get('regular')`, with no fallback to any other entry of
the candidate's ranked URL list. -/
def unsplashDownloadUrl (wd : UWall) : PyVal := wd.regular

/-- Pixabay URL choice (pixabay_scraper line 180):
`.get('original') or .get('full') or .get('small')`. -/
def pixabayDownloadUrl (wd : PWall) : PyVal :=
  pyOr (pyOr wd.original wd.full) wd.small

/-- Filename construction (unsplash_scraper lines 184-186):
`f"{title}_by_{user}" if user else title`, then `sanitize_filename`.
String interpolation of the stored values uses `pyStr`. -/
def unsplashFilename (wd : UWall) : String :=
  sanitize_filename
    (if pyTruthy wd.username then pyStr wd.title ++ "_by_" ++ pyStr wd.username
     else pyStr wd.title)

/-- The destination path (unsplash_scraper lines 188-202):
`download_directory / category / f"{filename}{ext}"`, where the extension
falls back to `.jpg` when the URL has none, and `_{width}x{height}` is
appended when both dimensions are truthy. -/
def unsplashOutputPath (cfg : ScraperConfig) (wd : UWall) (url : String) : String :=
  cfg.downloadDirectory ++ "/" ++ pyStr wd.category ++ "/" ++
    (if pyTruthy wd.width && pyTruthy wd.height then
      unsplashFilename wd ++ "_" ++ pyStr wd.width ++ "x" ++ pyStr wd.height
     else unsplashFilename wd) ++
    (if get_file_extension_from_url url = "" then ".jpg"
     else get_file_extension_from_url url)

/-- Embedding of `UnsplashScraper.download_wallpaper` (lines 161-240), as the
sequential body run once the semaphore permit is held and the rate limit
wait has returned (those are modelled separately).  Returns the outcome
(`some` path or `None`), the updated file system, and the number of
network fetches the call issued (the API download-trigger GET of lines
211-224 plus the actual `download_file` fetch).  The existing-file check
of lines 204-207 returns before any fetch. -/
def unsplashDownloadWallpaper (cfg : ScraperConfig) (wd : UWall)
    (fs : List String) (resp : FetchResult) (timeout : Nat) :
    Option String × List String × Nat :=
  if pyTruthy (unsplashDownloadUrl wd) then
    if unsplashOutputPath cfg wd (pyStr (unsplashDownloadUrl wd)) ∈ fs then
      (some (unsplashOutputPath cfg wd (pyStr (unsplashDownloadUrl wd))), fs, 0)
    else
      match download_file (pyStr (unsplashDownloadUrl wd))
          (unsplashOutputPath cfg wd (pyStr (unsplashDownloadUrl wd))) resp timeout fs with
      | ((true, _), fs2) =>
        (some (unsplashOutputPath cfg wd (pyStr (unsplashDownloadUrl wd))), fs2,
          (if pyTruthy wd.download_url && pyTruthyStr cfg.apiKey then 1 else 0) + 1)
      | ((false, _), fs2) =>
        (Option.none, fs2,
          (if pyTruthy wd.download_url && pyTruthyStr cfg.apiKey then 1 else 0) + 1)
  else (Option.none, fs, 0)

lemma download_file_success_fs (url destination : String) (resp : FetchResult)
    (timeout : Nat) (fs : List String)
    (h : (download_file url destination resp timeout fs).1.1 = true) :
    (download_file url destination resp timeout fs).2 = destination :: fs := by
  cases resp with
  | response status reason =>
    by_cases h200 : status = 200
    · simp [download_file, h200]
    · simp [download_file, h200] at h
  | clientError msg => simp [download_file] at h
  | timeoutErr => simp [download_file] at h

/-- C3: when the computed destination path already exists, the download
step returns that path as a success with zero network fetches; and after
any successful call, a repeated call with the same configuration and
candidate (against any network oracle) succeeds with zero fetches —
the second call never reaches the network. -/
theorem c3_existing_file_short_circuit (cfg : ScraperConfig) (wd : UWall)
    (fs : List String) (resp resp2 : FetchResult) (timeout t2 : Nat) :
    (pyTruthy (unsplashDownloadUrl wd) = true →
      unsplashOutputPath cfg wd (pyStr (unsplashDownloadUrl wd)) ∈ fs →
      unsplashDownloadWallpaper cfg wd fs resp timeout =
        (some (unsplashOutputPath cfg wd (pyStr (unsplashDownloadUrl wd))), fs, 0)) ∧
    (∀ (p : String) (fs2 : List String) (k : Nat),
      unsplashDownloadWallpaper cfg wd fs resp timeout = (some p, fs2, k) →
      unsplashDownloadWallpaper cfg wd fs2 resp2 t2 = (some p, fs2, 0)) := by
  constructor
  · intro hU hmem
    simp [unsplashDownloadWallpaper, hU, hmem]
  · intro p fs2 k h
    by_cases hU : pyTruthy (unsplashDownloadUrl wd)
    · by_cases hmem : unsplashOutputPath cfg wd (pyStr (unsplashDownloadUrl wd)) ∈ fs
      · simp only [unsplashDownloadWallpaper, hU, hmem, if_true] at h
        simp only [Prod.mk.injEq, Option.some.injEq] at h
        obtain ⟨hp, hfs, _⟩ := h
        subst hfs
        rw [← hp]
        simp [unsplashDownloadWallpaper, hU, hmem]
      · simp only [unsplashDownloadWallpaper, hU, hmem, if_true, if_false] at h
        rcases hdl : download_file (pyStr (unsplashDownloadUrl wd))
            (unsplashOutputPath cfg wd (pyStr (unsplashDownloadUrl wd)))
            resp timeout fs with ⟨⟨succ, msg⟩, fsx⟩
        rw [hdl] at h
        cases succ with
        | false => simp at h
        | true =>
          simp only [Prod.mk.injEq, Option.some.injEq] at h
          obtain ⟨hp, hfs, _⟩ := h
          have hfs2 : fsx =
              unsplashOutputPath cfg wd (pyStr (unsplashDownloadUrl wd)) :: fs := by
            have hs := download_file_success_fs (pyStr (unsplashDownloadUrl wd))
              (unsplashOutputPath cfg wd (pyStr (unsplashDownloadUrl wd)))
              resp timeout fs (by rw [hdl])
            rw [hdl] at hs
            exact hs
          subst hfs
          rw [← hp]
          have hmem2 : unsplashOutputPath cfg wd (pyStr (unsplashDownloadUrl wd)) ∈ fsx := by
            rw [hfs2]
            exact List.mem_cons_self _ _
          simp [unsplashDownloadWallpaper, hU, hmem2]
    · simp [unsplashDownloadWallpaper, hU] at h

/-- A concrete Unsplash candidate for the C3 witness: a present `regular`
URL, title `t`, photographer `u`, category `nature`, no dimensions. -/
def uwC3 : UWall :=
  ⟨PyVal.pyNone, PyVal.str "t", PyVal.pyNone, PyVal.pyNone,
   PyVal.str "https://e/t.jpg", PyVal.pyNone, PyVal.pyNone, PyVal.pyNone,
   PyVal.pyNone, PyVal.str "u", PyVal.pyNone, PyVal.pyNone,
   PyVal.str "nature", PyVal.str "landscape"⟩

def cfgC3 : ScraperConfig := ⟨"/wp", some "k"⟩

/-- Witness for C3: with the destination already on disk, the call
succeeds with that path, leaves the file system unchanged, and issues no
fetch even though the network oracle would fail. -/
theorem c3_existing_file_short_circuit_witness :
    unsplashDownloadWallpaper cfgC3 uwC3
        [unsplashOutputPath cfgC3 uwC3 (pyStr (unsplashDownloadUrl uwC3))]
        (FetchResult.clientError "connection refused") 60 =
      (some (unsplashOutputPath cfgC3 uwC3 (pyStr (unsplashDownloadUrl uwC3))),
       [unsplashOutputPath cfgC3 uwC3 (pyStr (unsplashDownloadUrl uwC3))], 0) :=
  (c3_existing_file_short_circuit cfgC3 uwC3
      [unsplashOutputPath cfgC3 uwC3 (pyStr (unsplashDownloadUrl uwC3))]
      (FetchResult.clientError "connection refused")
      (FetchResult.clientError "connection refused") 60 60).1
    (by decide) (List.mem_cons_self _ _)

/-! ### URL resolution (C5) -/

/-- Counterexample to C5 as originally stated: an Unsplash candidate whose
consulted URL (`regular`) is `None` while higher- and lower-ranked URLs
(`full`, `small`) are present does not resolve to any present URL — the
download step fails outright with no fetch, because unsplash_scraper
line 178 reads only `regular` and never falls back. -/
theorem c5_url_resolution_counterexample :
    unsplashDownloadWallpaper ⟨"/wp", some "k"⟩
        ⟨PyVal.pyNone, PyVal.str "t", PyVal.pyNone, PyVal.str "https://e/small.jpg",
         PyVal.pyNone, PyVal.str "https://e/full.jpg", PyVal.pyNone, PyVal.pyNone,
         PyVal.pyNone, PyVal.pyNone, PyVal.pyNone, PyVal.pyNone,
         PyVal.str "nature", PyVal.str "landscape"⟩
        [] (FetchResult.response 200 "OK") 60 = (Option.none, [], 0) := by
  decide

/-- C5 amended: the ranked-URL fallback belongs to the Pixabay download
step, whose chain `original or full or small` picks the highest-ranked
Python-truthy entry and falls back only on absence (falsiness); in
particular `[None, good_url]` resolves to `good_url`.  The Unsplash
download step consults only `regular` and fails (returns `None` with no
fetch) whenever `regular` is absent, regardless of the other entries. -/
theorem c5_url_resolution_amended :
    (∀ wd : PWall, pyTruthy wd.original = true → pixabayDownloadUrl wd = wd.original) ∧
    (∀ wd : PWall, pyTruthy wd.original = false → pyTruthy wd.full = true →
      pixabayDownloadUrl wd = wd.full) ∧
    (∀ wd : PWall, pyTruthy wd.original = false → pyTruthy wd.full = false →
      pixabayDownloadUrl wd = wd.small) ∧
    (∀ (cfg : ScraperConfig) (wd : UWall) (fs : List String) (resp : FetchResult)
      (t : Nat), pyTruthy wd.regular = false →
      unsplashDownloadWallpaper cfg wd fs resp t = (Option.none, fs, 0)) := by
  refine ⟨?_, ?_, ?_, ?_⟩
  · intro wd h
    simp [pixabayDownloadUrl, pyOr, h]
  · intro wd h1 h2
    simp [pixabayDownloadUrl, pyOr, h1, h2]
  · intro wd h1 h2
    simp [pixabayDownloadUrl, pyOr, h1, h2]
  · intro cfg wd fs resp t h
    simp [unsplashDownloadWallpaper, unsplashDownloadUrl, h]

/-- Witness for C5 (amended) at concrete candidates: a Pixabay candidate
with `original = None` and a present `full` URL resolves to the `full`
URL, and an Unsplash candidate without `regular` fails. -/
theorem c5_url_resolution_amended_witness :
    pixabayDownloadUrl
        ⟨PyVal.num 7, PyVal.str "t", PyVal.pyNone, PyVal.pyNone,
         PyVal.str "https://e/small.jpg", PyVal.str "https://e/good.jpg",
         PyVal.pyNone, PyVal.pyNone, PyVal.pyNone, PyVal.pyNone, PyVal.pyNone,
         PyVal.pyNone, PyVal.pyNone, PyVal.pyNone, PyVal.str "nature",
         PyVal.pyNone, PyVal.pyNone⟩ = PyVal.str "https://e/good.jpg" ∧
      unsplashDownloadWallpaper ⟨"/wp", Option.none⟩
          ⟨PyVal.pyNone, PyVal.str "t", PyVal.pyNone, PyVal.pyNone, PyVal.pyNone,
           PyVal.pyNone, PyVal.pyNone, PyVal.pyNone, PyVal.pyNone, PyVal.pyNone,
           PyVal.pyNone, PyVal.pyNone, PyVal.str "nature", PyVal.str "landscape"⟩
          [] FetchResult.timeoutErr 60 = (Option.none, [], 0) := by
  constructor
  · exact c5_url_resolution_amended.2.1
      ⟨PyVal.num 7, PyVal.str "t", PyVal.pyNone, PyVal.pyNone,
       PyVal.str "https://e/small.jpg", PyVal.str "https://e/good.jpg",
       PyVal.pyNone, PyVal.pyNone, PyVal.pyNone, PyVal.pyNone, PyVal.pyNone,
       PyVal.pyNone, PyVal.pyNone, PyVal.pyNone, PyVal.str "nature",
       PyVal.pyNone, PyVal.pyNone⟩ (by decide) (by decide)
  · exact c5_url_resolution_amended.2.2.2 ⟨"/wp", Option.none⟩
      ⟨PyVal.pyNone, PyVal.str "t", PyVal.pyNone, PyVal.pyNone, PyVal.pyNone,
       PyVal.pyNone, PyVal.pyNone, PyVal.pyNone, PyVal.pyNone, PyVal.pyNone,
       PyVal.pyNone, PyVal.pyNone, PyVal.str "nature", PyVal.str "landscape"⟩
      [] FetchResult.timeoutErr 60 (by decide)


/-! ## `UnsplashScraper.get_wallpaper_list` (lines 70-159) — C6

The per-item parse (lines 137-155) runs inside `try`; any exception —
e.g. `.get` on a non-dict item or on a non-dict `urls`/`links`/`user`
value — is caught at line 156 and logged as one warning, and the loop
continues.  `parseWallpaperItem` returns `none` exactly when the dict
construction would raise.
-/

def parseWallpaperItem (query orientation : String) (item : PyVal) : Option UWall :=
  (pyGet item "id" PyVal.pyNone).bind fun id =>
  (pyGet item "description" PyVal.pyNone).bind fun desc =>
  (pyGet item "alt_description" PyVal.pyNone).bind fun alt =>
  (pyGet item "urls" (PyVal.dict [])).bind fun urls =>
  (pyGet urls "thumb" PyVal.pyNone).bind fun thumb =>
  (pyGet urls "small" PyVal.pyNone).bind fun small =>
  (pyGet urls "regular" PyVal.pyNone).bind fun regular =>
  (pyGet urls "full" PyVal.pyNone).bind fun full =>
  (pyGet urls "raw" PyVal.pyNone).bind fun raw =>
  (pyGet item "links" (PyVal.dict [])).bind fun links =>
  (pyGet links "download" PyVal.pyNone).bind fun dl =>
  (pyGet item "user" (PyVal.dict [])).bind fun userD =>
  (pyGet userD "name" PyVal.pyNone).bind fun user =>
  (pyGet userD "username" PyVal.pyNone).bind fun username =>
  (pyGet item "width" PyVal.pyNone).bind fun width =>
  (pyGet item "height" PyVal.pyNone).bind fun height =>
  some ⟨id,
        pyOr desc (pyOr alt (PyVal.str ("unsplash_" ++ pyStr id))),
        thumb, small, regular, full, raw, dl, user, username, width, height,
        PyVal.str (if query = "" then "unsplash" else query),
        PyVal.str orientation⟩

/-- One iteration of the `for item in results` loop: append the parsed
wallpaper, or count one warning for a malformed item. -/
def parseStep (query orientation : String) (acc : List UWall × Nat)
    (item : PyVal) : List UWall × Nat :=
  match parseWallpaperItem query orientation item with
  | some w => (acc.1 ++ [w], acc.2)
  | Option.none => (acc.1, acc.2 + 1)

/-- Lines 128-158: the parse loop over the decoded results; returns the
wallpapers and the number of warnings logged. -/
def unsplashParseResults (query orientation : String) (items : List PyVal) :
    List UWall × Nat :=
  items.foldl (parseStep query orientation) ([], 0)

/-- Embedding of `get_wallpaper_list` (lines 89-159): missing API key and non-200
responses return `[]`; the `/photos/random` branch (empty query) takes
the decoded body when it is a list, the `/search/photos` branch reads
`data.get('results', [])` (which raises on a non-dict body — modelled as
`none`, an exception that escapes the function); then the parse loop. -/
def unsplashGetWallpaperList (apiKey : Option String) (query orientation : String)
    (status : Nat) (data : PyVal) : Option (List UWall × Nat) :=
  if pyTruthyStr apiKey = false then some ([], 0)
  else if status ≠ 200 then some ([], 0)
  else
    match (if query = "" then
            some (PyVal.list (match data with | PyVal.list l => l | _ => []))
          else pyGet data "results" (PyVal.list [])) with
    | Option.none => Option.none
    | some resultsVal =>
      match pyIter resultsVal with
      | Option.none => Option.none
      | some items => some (unsplashParseResults query orientation items)

lemma foldl_parseStep (q o : String) : ∀ (items : List PyVal) (ws : List UWall) (n : Nat),
    (items.foldl (parseStep q o) (ws, n)).1 =
        ws ++ items.filterMap (parseWallpaperItem q o) ∧
      (items.foldl (parseStep q o) (ws, n)).2 =
        n + items.countP (fun i => (parseWallpaperItem q o i).isNone) := by
  intro items
  induction items with
  | nil =>
    intro ws n
    simp
  | cons x xs ih =>
    intro ws n
    simp only [List.foldl_cons, List.filterMap_cons, List.countP_cons]
    cases hx : parseWallpaperItem q o x with
    | none =>
      simp only [parseStep, hx]
      refine ⟨(ih ws (n + 1)).1, ?_⟩
      rw [(ih ws (n + 1)).2]
      simp [hx]
      omega
    | some w =>
      simp only [parseStep, hx]
      refine ⟨?_, ?_⟩
      · rw [(ih (ws ++ [w]) n).1]
        simp
      · rw [(ih (ws ++ [w]) n).2]
        simp [hx]

/-- A listing body with five well-formed items and one malformed item
(a bare string, whose `.get` raises). -/
def sixItemListing : PyVal :=
  PyVal.dict [("results", PyVal.list
    [PyVal.dict [("id", PyVal.num 1)], PyVal.dict [("id", PyVal.num 2)],
     PyVal.dict [("id", PyVal.num 3)], PyVal.str "oops",
     PyVal.dict [("id", PyVal.num 4)], PyVal.dict [("id", PyVal.num 5)]])]

/-- C6: the listing parse loop never raises — for every item list it
returns exactly the well-formed entries (in order) and one warning per
malformed entry; in particular a response with five well-formed items and
one malformed item yields exactly five candidates and one warning through
the whole `get_wallpaper_list` pipeline. -/
theorem c6_malformed_entries_tolerated :
    (∀ (q o : String) (items : List PyVal),
      (unsplashParseResults q o items).1 = items.filterMap (parseWallpaperItem q o) ∧
      (unsplashParseResults q o items).2 =
        items.countP (fun i => (parseWallpaperItem q o i).isNone)) ∧
    (unsplashGetWallpaperList (some "k") "nature" "landscape" 200 sixItemListing).map
        (fun r => (r.1.length, r.2)) = some (5, 1) := by
  constructor
  · intro q o items
    have h := foldl_parseStep q o items [] 0
    refine ⟨?_, ?_⟩
    · rw [show unsplashParseResults q o items = items.foldl (parseStep q o) ([], 0) from rfl,
        h.1]
      simp
    · rw [show unsplashParseResults q o items = items.foldl (parseStep q o) ([], 0) from rfl,
        h.2]
      simp
  · rfl


/-! ## `BaseScraper.download_all` (base_scraper lines 62-76) — C7

`asyncio.gather(*tasks, return_exceptions=True)` yields one result per
task in submission order: the returned `Path`, the returned `None`, or
the raised exception object.  Line 74 keeps exactly the `Path` results.
-/

def pathOfOutcome : DownloadOutcome → Option String
  | DownloadOutcome.returnedPath p => some p
  | _ => Option.none

/-- Embedding of `download_all`: run `download_wallpaper` for every listed wallpaper,
gather the per-task outcomes, and keep the successful paths. -/
def download_all {α : Type} (wallpapers : List α)
    (runTask : α → DownloadOutcome) : List String :=
  (wallpapers.map runTask).filterMap pathOfOutcome

lemma pathOfOutcome_eq_some {r : DownloadOutcome} {p : String} :
    pathOfOutcome r = some p ↔ r = DownloadOutcome.returnedPath p := by
  cases r <;> simp [pathOfOutcome]

/-- C7: `download_all` is a total function of the per-item outcomes — a
path is in its result exactly when some listed wallpaper's task returned
that path, and an item whose task raised an exception (or returned
`None`) is simply dropped: the rest of the batch is unaffected. -/
theorem c7_download_all_collects_failures :
    (∀ (α : Type) (ws : List α) (runTask : α → DownloadOutcome) (p : String),
      p ∈ download_all ws runTask ↔
        ∃ w ∈ ws, runTask w = DownloadOutcome.returnedPath p) ∧
    (∀ (α : Type) (ws1 ws2 : List α) (runTask : α → DownloadOutcome) (w : α)
      (m : String), runTask w = DownloadOutcome.raised m →
      download_all (ws1 ++ w :: ws2) runTask = download_all (ws1 ++ ws2) runTask) ∧
    (∀ (α : Type) (ws1 ws2 : List α) (runTask : α → DownloadOutcome) (w : α),
      runTask w = DownloadOutcome.returnedNone →
      download_all (ws1 ++ w :: ws2) runTask = download_all (ws1 ++ ws2) runTask) := by
  refine ⟨?_, ?_, ?_⟩
  · intro α ws runTask p
    simp [download_all, List.mem_filterMap, List.mem_map, pathOfOutcome_eq_some]
  · intro α ws1 ws2 runTask w m h
    simp [download_all, List.map_append, List.filterMap_append, h, pathOfOutcome]
  · intro α ws1 ws2 runTask w h
    simp [download_all, List.map_append, List.filterMap_append, h, pathOfOutcome]

/-- A concrete batch for the C7 witness: item 0 succeeds, item 1 raises,
item 2 returns `None`. -/
def runTaskC7 : Nat → DownloadOutcome :=
  fun n =>
    if n = 0 then DownloadOutcome.returnedPath "/wp/a.jpg"
    else if n = 1 then DownloadOutcome.raised "boom"
    else DownloadOutcome.returnedNone

/-- Witness for C7: the raising item is dropped and the batch is
otherwise unchanged, and the successful path is reported. -/
theorem c7_download_all_collects_failures_witness :
    download_all ([0] ++ 1 :: [2]) runTaskC7 = download_all ([0] ++ [2]) runTaskC7 ∧
      ("/wp/a.jpg" ∈ download_all ([0] ++ 1 :: [2]) runTaskC7 ↔
        ∃ w ∈ ([0] ++ 1 :: [2]), runTaskC7 w = DownloadOutcome.returnedPath "/wp/a.jpg") := by
  constructor
  · exact c7_download_all_collects_failures.2.1 Nat [0] [2] runTaskC7 1 "boom" (by decide)
  · exact c7_download_all_collects_failures.1 Nat ([0] ++ 1 :: [2]) runTaskC7 "/wp/a.jpg"

/-! ## The `main` download loop (main.py lines 101-133) — C9

Each page iteration calls `scraper.get_wallpaper_list(...)` (one listing
response), extends `all_wallpapers`, truncates-and-breaks when
`args.limit and len(all_wallpapers) > args.limit`, and otherwise — when
the page was non-empty — calls `scraper.download_all()`.  Crucially,
`download_all` (base_scraper line 69) performs its own fresh
`get_wallpaper_list(**kwargs)` call (consuming the next listing response)
and downloads everything that call returns; the collected, truncated
`all_wallpapers` list is never what gets downloaded.  The listing oracle
is a queue of responses consumed in order.
-/

def takeListing {α : Type} : List (List α) → List α × List (List α)
  | [] => ([], [])
  | l :: rest => (l, rest)

/-- Embedding of `BaseScraper.download_all` as invoked from `main`: a fresh listing
(the next queued response) followed by the gather-and-filter step. -/
def downloadAllModel {α : Type} (outcome : α → DownloadOutcome)
    (queue : List (List α)) : List String × List (List α) :=
  (download_all (takeListing queue).1 outcome, (takeListing queue).2)

structure MainRunState (α : Type) where
  allWallpapers : List α
  totalDownloaded : List String
  queue : List (List α)
deriving Repr

/-- The page loop of `main` (lines 106-131).  The fuel argument is
`args.pages`.  `limit = none` models an absent `--limit`; Python's
`if args.limit and ...` also skips the truncation when the limit is 0. -/
def mainLoop {α : Type} (limit : Option Nat) (outcome : α → DownloadOutcome) :
    Nat → MainRunState α → MainRunState α
  | 0, s => s
  | n + 1, s =>
    if (match limit with
        | some l => decide (0 < l) &&
            decide (l < (s.allWallpapers ++ (takeListing s.queue).1).length)
        | Option.none => false) then
      ⟨(s.allWallpapers ++ (takeListing s.queue).1).take (limit.getD 0),
       s.totalDownloaded, (takeListing s.queue).2⟩
    else
      if (takeListing s.queue).1.isEmpty then
        mainLoop limit outcome n
          ⟨s.allWallpapers ++ (takeListing s.queue).1, s.totalDownloaded,
           (takeListing s.queue).2⟩
      else
        mainLoop limit outcome n
          ⟨s.allWallpapers ++ (takeListing s.queue).1,
           s.totalDownloaded ++ (downloadAllModel outcome (takeListing s.queue).2).1,
           (downloadAllModel outcome (takeListing s.queue).2).2⟩

/-- C9 is violated by the code: with `--limit 5` and one page whose
listing returns 3 candidates (under the limit, so no truncation), the
downloading step re-lists via `download_all` — here the fresh listing
returns 30 candidates — and downloads all 30 of them, exceeding the
configured limit of 5. -/
theorem c9_limit_not_enforced :
    (mainLoop (some 5) (fun n => DownloadOutcome.returnedPath ("/wp/" ++ toString n))
        1 ⟨[], [], [[0, 1, 2], List.range 30]⟩).totalDownloaded.length = 30 := by
  rfl


end WallpaperScraper
